import Mathlib

/-!
Verification of `src/agents/critic/agent.py` (silvabyte/codeloops).

The module is a configuration file: it constructs a `FastAgent` named
"CodeLoops Quality Critic", registers one agent whose configuration is a
single triple-quoted instruction string (source lines 7-66), defines one
async function `main` (lines 67-70) that opens `fast.run()` and calls
`agent.interactive()`, and guards `asyncio.run(main())` behind
`if __name__ == "__main__"` (lines 73-74).

The embedding below transcribes the instruction string verbatim (split at
the lines individual claims refer to, so that containment facts are
structural), and models the module's run-time behaviour as an explicit
trace of effects.  Literal braces in the source text are written with the
escapes \x7b and \x7d, apostrophes with \x27; otherwise every string below
is a character-for-character copy of the corresponding source lines.
-/

/-- Source lines 8-24 of the instruction literal: the opening sentence, the
System Architecture section, and the start of the DagNode schema up to the
`role` field, each line followed by its newline. -/
def part1 : String := "You are the Quality Critic in the CodeLoops system, responsible for evaluating and improving the quality of code generation.\n\n## System Architecture\nYou are part of the CodeLoops system with these key components:\n- KnowledgeGraphManager: Stores all nodes, artifacts, and relationships\n- Actor: Generates new thought nodes and code\n- Critic (you): Evaluates actor nodes and provides feedback\n- RevisionCounter: Tracks revision attempts for each node\n- ActorCriticEngine: Coordinates the actor-critic loop\n\n## DagNode Schema\nYou review nodes with this structure:\n```typescript\ninterface DagNode \x7b\n  id: string;\n  thought: string;\n  role: \x27actor\x27 | \x27critic\x27;\n"

/-- Source line 25: the schema declaration of the optional `verdict` field
and its three admissible values. -/
def verdictSchemaLine : String := "  verdict?: \x27approved\x27 | \x27needs_revision\x27 | \x27reject\x27;"

/-- Source lines 26-43: the rest of the DagNode schema and the first three
Actor Schema Requirements. -/
def part2 : String := "\n  verdictReason?: string;\n  verdictReferences?: string[];\n  target?: string; // nodeId this criticises\n  parents: string[];\n  children: string[];\n  needsMore?: boolean;\n  createdAt: string; // ISO timestamp\n  branchLabel?: string; // friendly label for branch head\n  tags?: string[]; // categories (\"design\", \"task\", etc.)\n  artifacts?: ArtifactRef[]; // attached artifacts\n\x7d\n```\n\n## Actor Schema Requirements\nThe actor must follow these schema requirements:\n1. `thought`: Must be non-empty and describe the work done\n2. `tags`: Must include at least one semantic tag (requirement, task, risk, design, definition)\n3. `artifacts`: Must be included when files are referenced in the thought\n"

/-- Source line 44: the actor-side requirement that `branchLabel` is used
only on the first node of an alternative approach. -/
def branchLabelRequirementLine : String := "4. `branchLabel`: Should only be used for the first node of an alternative approach"

/-- Source lines 45-47: the Review Process heading. -/
def part3 : String := "\n\n## Your Review Process\nWhen reviewing an actor node:\n"

/-- Source line 48: review step 1, naming the three verdict values. -/
def reviewVerdictLine : String := "1. Set the appropriate verdict: \x27approved\x27, \x27needs_revision\x27, or \x27reject\x27"

/-- Source line 49: review step 2. -/
def part4 : String := "\n2. Provide a clear verdictReason when requesting revisions\n"

/-- Source line 50: review step 3, the requested single-line JSON response
format with the fields `verdict` and `verdictReason`. -/
def jsonFormatLine : String := "3. respond with a single line response with the json format: \x7b\"verdict\": \"approved|needs_revision|reject\", \"verdictReason\": \"reason for revision if needed\"\x7d"

/-- Source lines 51-55: the Specific Checks heading and the first three
checks. -/
def part5 : String := "\n\n## Specific Checks to Perform\n- File References: Detect file paths/names in thought to ensure relevant artifacts are attached\n- Tag Validation: Ensure semantic tag is relevant and meaningful for future searches\n- Duplicate Detection: Look for similar components/APIs in the knowledge graph\n"

/-- Source line 56: the Branch Consistency check the critic is told to
perform. -/
def branchConsistencyLine : String := "- Branch Consistency: Ensure branch labels are used correctly, only on first node of alternative paths."

/-- Source lines 57-59: the Code Quality check and the Verdict Types
heading. -/
def part6 : String := "\n- Code Quality: Flag issues like @ts-expect-error, TODOs, or poor practices\n\n## Verdict Types\n"

/-- Source line 60: glossary entry for the `approved` verdict. -/
def approvedGlossaryLine : String := "- `approved`: The node meets all requirements and can proceed"

/-- Source line 61: glossary entry for the `needs_revision` verdict,
including the rule that a verdictReason is always included. -/
def needsRevisionGlossaryLine : String := "- `needs_revision`: The node needs specific improvements (always include verdictReason)"

/-- Source line 62: glossary entry for the `reject` verdict, fixing the
default maximum number of revision attempts at 2. -/
def rejectGlossaryLine : String := "- `reject`: The node is fundamentally flawed or has reached max revision attempts (default: 2)"

/-- Source lines 63-64 and the trailing newline before the closing
triple quote. -/
def part7 : String := "\n\nRemember: Your goal is to prevent temporal difference problems by ensuring early decisions are properly linked to later outcomes, and to maintain consistency across the entire project.\n"

/-- The full instruction string passed to `fast.agent` (source lines
8-65): the concatenation, in source order, of the chunks above. -/
def instruction : String :=
  part1 ++ verdictSchemaLine ++ part2 ++ branchLabelRequirementLine ++ part3 ++
    reviewVerdictLine ++ part4 ++ jsonFormatLine ++ part5 ++ branchConsistencyLine ++
    part6 ++ approvedGlossaryLine ++ "\n" ++ needsRevisionGlossaryLine ++ "\n" ++
    rejectGlossaryLine ++ part7

/-- The name passed to the `FastAgent` constructor at source line 4. -/
def fastAgentName : String := "CodeLoops Quality Critic"

/-- One string occurs inside another: it can be written as the middle of a
three-way split. -/
def containsSubstr (s t : String) : Prop := ∃ pre post, s = pre ++ (t ++ post)

/-- The run-time actions the module can perform, read off the source:
constructing the `FastAgent` (line 4), registering the decorated agent with
its instruction payload (lines 7-66), the guarded `asyncio.run(main())`
call (line 74), opening the `fast.run()` context (line 69), and calling
`agent.interactive()` (line 70).  The module contains no other statement
that acts at run time. -/
inductive Effect where
  | constructFastAgent (name : String)
  | registerAgent (payload : String)
  | asyncioRunMain
  | openRunContext
  | callInteractive
  deriving DecidableEq

/-- Effects performed when the module is evaluated (imported): line 4
constructs the FastAgent and the decorator at lines 7-66 registers the one
agent with the instruction payload.  Nothing else runs at import time. -/
def moduleImportEffects : List Effect :=
  [Effect.constructFastAgent fastAgentName, Effect.registerAgent instruction]

/-- The body of `main` (lines 69-70): enter the `fast.run()` context once,
make one `agent.interactive()` call inside it, and return when that call
returns. -/
def mainBodyEffects : List Effect := [Effect.openRunContext, Effect.callInteractive]

/-- The complete effect trace of evaluating the module under a given
`__name__`: import-time effects always happen; `asyncio.run(main())` and
the body of `main` happen exactly when the guard at line 73 fires. -/
def moduleTrace (pyName : String) : List Effect :=
  if pyName = "__main__" then
    moduleImportEffects ++ Effect.asyncioRunMain :: mainBodyEffects
  else
    moduleImportEffects

/-- The module never reads `sys.argv` (it imports only `asyncio` and
`FastAgent`), so its trace as a function of the command line is the trace
of the module, ignoring the arguments. -/
def moduleTraceWithArgv (pyName : String) (argv : List String) : List Effect :=
  moduleTrace pyName

/-- The instruction registered with the agent runner on a given run.  The
decorator at lines 7-66 receives the string literal directly; the module
reads no environment variable, no command-line argument and no interactive
input when forming it, so the function ignores those three. -/
def registeredInstruction (env : List (String × String)) (argv : List String)
    (stdinLines : List String) : String :=
  instruction

/-- Outcome of running the module as the main program, as a function of the
critic responses produced during the interactive session.  The source has
no try/except, no raise statement and no code that reads the critic output,
so every response stream yields the same fixed trace and no module-raised
error. -/
def runModuleAsMain (criticResponses : List String) : Except String (List Effect) :=
  Except.ok (moduleTrace "__main__")

/-- The parsers, validators and error handlers the module defines for the
critic's output: the source defines none, so the list is empty. -/
def criticResponseHandlers : List (String → Except String Unit) := []

/-- Functions defined at the top level of the module: only `main`
(lines 67-70). -/
def moduleFunctionDefs : List String := ["main"]

/-- Classes defined by the module: none. -/
def moduleClassDefs : List String := []

/-- The comment at source line 68, inside `main`, the only mention of the
model-selection switch. -/
def mainComment : String := "use the --model command line switch or agent arguments to change model"

/-- The model-selection command-line switch named in that comment. -/
def modelSwitchText : String := "--model"

/-- The `role` field of a DagNode (schema line 24): actor or critic. -/
inductive Role where
  | actor
  | critic
  deriving DecidableEq

/-- The three admissible values of the optional `verdict` field
(schema line 25). -/
inductive Verdict where
  | approved
  | needs_revision
  | reject
  deriving DecidableEq

/-- The name of a verdict value as it is written in the instruction. -/
def Verdict.toName : Verdict → String
  | .approved => "approved"
  | .needs_revision => "needs_revision"
  | .reject => "reject"

/-- The instruction references `ArtifactRef` (schema line 35) without
defining it; modelled as an abstract file-reference string. -/
def ArtifactRef : Type := String

/-- The DagNode shape declared by the instruction's schema (lines 21-36):
optional fields are `Option`s, the `string[]` fields are lists of node
ids. -/
structure DagNode where
  id : String
  thought : String
  role : Role
  verdict : Option Verdict
  verdictReason : Option String
  verdictReferences : Option (List String)
  target : Option String
  parents : List String
  children : List String
  needsMore : Option Bool
  createdAt : String
  branchLabel : Option String
  tags : Option (List String)
  artifacts : Option (List ArtifactRef)

/-- The rule stated in the instruction text (lines 49 and 61): a node whose
verdict is `needs_revision` carries a verdictReason. -/
def reasonRequiredWhenNeedsRevision (n : DagNode) : Prop :=
  n.verdict = some Verdict.needs_revision → n.verdictReason.isSome

/-- The DagNode validators the module defines: the source contains no
function, class or branch that inspects a DagNode, so the list is empty. -/
def dagNodeValidators : List (DagNode → Bool) := []

/-- The three admissible verdict values, in the order of schema line 25. -/
def admissibleVerdicts : List String := ["approved", "needs_revision", "reject"]

/-- The verdict values named at schema line 25, in source order. -/
def schemaVerdictMentions : List String := ["approved", "needs_revision", "reject"]

/-- The verdict values named at review-process line 48, in source order. -/
def reviewProcessVerdictMentions : List String := ["approved", "needs_revision", "reject"]

/-- The verdict values named by the `verdict` field of the JSON format at
line 50, in source order; intercalating them with the bar separator
recovers that field's alternatives verbatim. -/
def jsonFormatVerdictMentions : List String := ["approved", "needs_revision", "reject"]

/-- The verdict values heading the glossary entries at lines 60-62, in
source order. -/
def verdictGlossaryMentions : List String := ["approved", "needs_revision", "reject"]

/-- The default maximum number of revision attempts fixed by glossary
line 62. -/
def maxRevisionAttemptsDefault : Nat := 2

set_option maxRecDepth 20000

lemma instruction_has_verdictSchemaLine : containsSubstr instruction verdictSchemaLine :=
  ⟨part1,
   part2 ++ branchLabelRequirementLine ++ part3 ++ reviewVerdictLine ++ part4 ++
     jsonFormatLine ++ part5 ++ branchConsistencyLine ++ part6 ++ approvedGlossaryLine ++
     "\n" ++ needsRevisionGlossaryLine ++ "\n" ++ rejectGlossaryLine ++ part7,
   by simp only [instruction, String.append_assoc]⟩

lemma instruction_has_branchLabelRequirementLine :
    containsSubstr instruction branchLabelRequirementLine :=
  ⟨part1 ++ verdictSchemaLine ++ part2,
   part3 ++ reviewVerdictLine ++ part4 ++ jsonFormatLine ++ part5 ++
     branchConsistencyLine ++ part6 ++ approvedGlossaryLine ++ "\n" ++
     needsRevisionGlossaryLine ++ "\n" ++ rejectGlossaryLine ++ part7,
   by simp only [instruction, String.append_assoc]⟩

lemma instruction_has_reviewVerdictLine : containsSubstr instruction reviewVerdictLine :=
  ⟨part1 ++ verdictSchemaLine ++ part2 ++ branchLabelRequirementLine ++ part3,
   part4 ++ jsonFormatLine ++ part5 ++ branchConsistencyLine ++ part6 ++
     approvedGlossaryLine ++ "\n" ++ needsRevisionGlossaryLine ++ "\n" ++
     rejectGlossaryLine ++ part7,
   by simp only [instruction, String.append_assoc]⟩

lemma instruction_has_reviewReasonStep : containsSubstr instruction part4 :=
  ⟨part1 ++ verdictSchemaLine ++ part2 ++ branchLabelRequirementLine ++ part3 ++
     reviewVerdictLine,
   jsonFormatLine ++ part5 ++ branchConsistencyLine ++ part6 ++ approvedGlossaryLine ++
     "\n" ++ needsRevisionGlossaryLine ++ "\n" ++ rejectGlossaryLine ++ part7,
   by simp only [instruction, String.append_assoc]⟩

lemma instruction_has_jsonFormatLine : containsSubstr instruction jsonFormatLine :=
  ⟨part1 ++ verdictSchemaLine ++ part2 ++ branchLabelRequirementLine ++ part3 ++
     reviewVerdictLine ++ part4,
   part5 ++ branchConsistencyLine ++ part6 ++ approvedGlossaryLine ++ "\n" ++
     needsRevisionGlossaryLine ++ "\n" ++ rejectGlossaryLine ++ part7,
   by simp only [instruction, String.append_assoc]⟩

lemma instruction_has_branchConsistencyLine :
    containsSubstr instruction branchConsistencyLine :=
  ⟨part1 ++ verdictSchemaLine ++ part2 ++ branchLabelRequirementLine ++ part3 ++
     reviewVerdictLine ++ part4 ++ jsonFormatLine ++ part5,
   part6 ++ approvedGlossaryLine ++ "\n" ++ needsRevisionGlossaryLine ++ "\n" ++
     rejectGlossaryLine ++ part7,
   by simp only [instruction, String.append_assoc]⟩

lemma instruction_has_approvedGlossaryLine :
    containsSubstr instruction approvedGlossaryLine :=
  ⟨part1 ++ verdictSchemaLine ++ part2 ++ branchLabelRequirementLine ++ part3 ++
     reviewVerdictLine ++ part4 ++ jsonFormatLine ++ part5 ++ branchConsistencyLine ++
     part6,
   "\n" ++ needsRevisionGlossaryLine ++ "\n" ++ rejectGlossaryLine ++ part7,
   by simp only [instruction, String.append_assoc]⟩

lemma instruction_has_needsRevisionGlossaryLine :
    containsSubstr instruction needsRevisionGlossaryLine :=
  ⟨part1 ++ verdictSchemaLine ++ part2 ++ branchLabelRequirementLine ++ part3 ++
     reviewVerdictLine ++ part4 ++ jsonFormatLine ++ part5 ++ branchConsistencyLine ++
     part6 ++ approvedGlossaryLine ++ "\n",
   "\n" ++ rejectGlossaryLine ++ part7,
   by simp only [instruction, String.append_assoc]⟩

lemma instruction_has_rejectGlossaryLine : containsSubstr instruction rejectGlossaryLine :=
  ⟨part1 ++ verdictSchemaLine ++ part2 ++ branchLabelRequirementLine ++ part3 ++
     reviewVerdictLine ++ part4 ++ jsonFormatLine ++ part5 ++ branchConsistencyLine ++
     part6 ++ approvedGlossaryLine ++ "\n" ++ needsRevisionGlossaryLine ++ "\n",
   part7,
   by simp only [instruction, String.append_assoc]⟩

/-- Claim C1: run as the main program, the module's entire behaviour is the
import-time setup followed by a single asyncio.run(main()) call; main opens
the fast.run() context exactly once, makes exactly one agent.interactive()
call, and the trace ends when that call returns — there is no other
computation, scheduling, locking or shared-resource handling in the trace. -/
theorem entry_point_single_async_call :
    moduleTrace "__main__" =
      moduleImportEffects ++ Effect.asyncioRunMain :: mainBodyEffects ∧
    (moduleTrace "__main__").count Effect.asyncioRunMain = 1 ∧
    mainBodyEffects.count Effect.openRunContext = 1 ∧
    mainBodyEffects.count Effect.callInteractive = 1 ∧
    mainBodyEffects = [Effect.openRunContext, Effect.callInteractive] ∧
    (moduleTrace "__main__").getLast? = some Effect.callInteractive :=
  ⟨rfl, rfl, rfl, rfl, rfl, rfl⟩

/-- Claim C2: the embedded instruction asks the critic for a single-line
JSON object with a `verdict` field and a `verdictReason` field, and the
module defines no parser, validator or error path for that output: every
critic response stream yields the same successful run. -/
theorem critic_output_requested_never_consumed :
    containsSubstr instruction jsonFormatLine ∧
    containsSubstr jsonFormatLine "\"verdict\"" ∧
    containsSubstr jsonFormatLine "\"verdictReason\"" ∧
    criticResponseHandlers = [] ∧
    ∀ rs : List String, runModuleAsMain rs = Except.ok (moduleTrace "__main__") :=
  ⟨instruction_has_jsonFormatLine,
   ⟨"3. respond with a single line response with the json format: \x7b",
    ": \"approved|needs_revision|reject\", \"verdictReason\": \"reason for revision if needed\"\x7d",
    by decide⟩,
   ⟨"3. respond with a single line response with the json format: \x7b\"verdict\": \"approved|needs_revision|reject\", ",
    ": \"reason for revision if needed\"\x7d",
    by decide⟩,
   rfl,
   fun _ => rfl⟩

/-- Claim C3: the schema gives the optional `verdict` field exactly three
admissible values — approved, needs_revision and reject — and every mention
of a verdict in the instruction (schema line 25, review-process lines 48
and 50, and the verdict-type glossary lines 60-62) uses only values from
that three-element set. -/
theorem verdict_values_exactly_three :
    (∀ v : Verdict, v.toName ∈ admissibleVerdicts) ∧
    admissibleVerdicts.Nodup ∧
    admissibleVerdicts.length = 3 ∧
    schemaVerdictMentions = admissibleVerdicts ∧
    reviewProcessVerdictMentions = admissibleVerdicts ∧
    jsonFormatVerdictMentions = admissibleVerdicts ∧
    containsSubstr jsonFormatLine (String.intercalate "|" jsonFormatVerdictMentions) ∧
    verdictGlossaryMentions = admissibleVerdicts ∧
    containsSubstr instruction verdictSchemaLine ∧
    containsSubstr instruction reviewVerdictLine ∧
    containsSubstr instruction jsonFormatLine ∧
    containsSubstr instruction approvedGlossaryLine ∧
    containsSubstr instruction needsRevisionGlossaryLine ∧
    containsSubstr instruction rejectGlossaryLine :=
  ⟨fun v => by cases v <;> decide,
   by decide, rfl, rfl, rfl, rfl,
   ⟨"3. respond with a single line response with the json format: \x7b\"verdict\": \"",
    "\", \"verdictReason\": \"reason for revision if needed\"\x7d",
    by decide⟩,
   rfl,
   instruction_has_verdictSchemaLine,
   instruction_has_reviewVerdictLine,
   instruction_has_jsonFormatLine,
   instruction_has_approvedGlossaryLine,
   instruction_has_needsRevisionGlossaryLine,
   instruction_has_rejectGlossaryLine⟩

/-- Claim C4: the instruction text requires a verdictReason whenever the
verdict is needs_revision (review step 2 at line 49 and the glossary entry
at line 61), while the module contains no validator enforcing it: a DagNode
with verdict needs_revision and no verdictReason is well-formed for every
piece of code in this file's model of the module. -/
theorem verdict_reason_rule_text_only :
    containsSubstr instruction needsRevisionGlossaryLine ∧
    containsSubstr instruction part4 ∧
    dagNodeValidators = [] ∧
    ∃ n : DagNode, n.verdict = some Verdict.needs_revision ∧ n.verdictReason = none ∧
      ¬ reasonRequiredWhenNeedsRevision n :=
  ⟨instruction_has_needsRevisionGlossaryLine,
   instruction_has_reviewReasonStep,
   rfl,
   ⟨DagNode.mk "n1" "add a login endpoint" Role.actor (some Verdict.needs_revision)
      none none none [] [] none "2025-01-01T00:00:00Z" none none none,
    rfl, rfl, fun h => by simpa [reasonRequiredWhenNeedsRevision] using h rfl⟩⟩

/-- Claim C5: the module instantiates exactly one FastAgent, named
"CodeLoops Quality Critic", and registers exactly one agent with it, whose
configuration is the single static instruction payload; beyond the entry
point `main` it defines no other function and no class. -/
theorem single_agent_single_instruction :
    (moduleImportEffects.countP fun e =>
      match e with
      | Effect.constructFastAgent _ => true
      | _ => false) = 1 ∧
    moduleImportEffects.count (Effect.constructFastAgent fastAgentName) = 1 ∧
    (moduleImportEffects.countP fun e =>
      match e with
      | Effect.registerAgent _ => true
      | _ => false) = 1 ∧
    moduleImportEffects.count (Effect.registerAgent instruction) = 1 ∧
    fastAgentName = "CodeLoops Quality Critic" ∧
    moduleFunctionDefs = ["main"] ∧
    moduleClassDefs = ([] : List String) :=
  ⟨rfl, rfl, rfl,
   by simp [moduleImportEffects, List.count_cons],
   rfl, rfl, rfl⟩

/-- Claim C6: the model-selection switch is named only in the comment
inside `main` (line 68); no code reads the command line, so the module's
trace is the same for every argument vector. -/
theorem model_switch_comment_only :
    containsSubstr mainComment modelSwitchText ∧
    ∀ (pyName : String) (argv1 argv2 : List String),
      moduleTraceWithArgv pyName argv1 = moduleTraceWithArgv pyName argv2 :=
  ⟨⟨"use the ", " command line switch or agent arguments to change model", by decide⟩,
   fun _ _ _ => rfl⟩

/-- Claim C7: `branchLabel` is optional in the DagNode schema and the
convention that it marks only the first node of an alternative branch lives
in the instruction text (actor requirement 4 at line 44 and the Branch
Consistency check at line 56); the module contains no validator enforcing
it, and nodes with or without the label are equally well-formed. -/
theorem branch_label_convention_text_only :
    containsSubstr instruction branchLabelRequirementLine ∧
    containsSubstr instruction branchConsistencyLine ∧
    dagNodeValidators = [] ∧
    (∃ n : DagNode, n.branchLabel = none) ∧
    (∃ n : DagNode, n.branchLabel = some "alternative-approach") :=
  ⟨instruction_has_branchLabelRequirementLine,
   instruction_has_branchConsistencyLine,
   rfl,
   ⟨DagNode.mk "n2" "continue main line" Role.actor none none none none ["n1"] [] none
      "2025-01-02T00:00:00Z" none none none, rfl⟩,
   ⟨DagNode.mk "n3" "try an event-driven design" Role.actor none none none none ["n1"]
      [] none "2025-01-02T00:00:00Z" (some "alternative-approach") none none, rfl⟩⟩

/-- Claim C8: glossary line 62 of the instruction fixes a numeric limit: a
node is rejected once it has reached the maximum number of revision
attempts, whose default is 2. -/
theorem max_revision_attempts_default_two :
    maxRevisionAttemptsDefault = 2 ∧
    containsSubstr instruction rejectGlossaryLine ∧
    containsSubstr rejectGlossaryLine
      ("(default: " ++ Nat.repr maxRevisionAttemptsDefault ++ ")") :=
  ⟨rfl,
   instruction_has_rejectGlossaryLine,
   ⟨"- `reject`: The node is fundamentally flawed or has reached max revision attempts ",
    "", by decide⟩⟩

/-- Claim C9: importing the module under any name other than "__main__"
performs only the import-time effects — constructing the FastAgent and
registering the agent — and neither runs asyncio, opens the run context,
nor calls the interactive loop. -/
theorem import_only_registers (pyName : String) (h : pyName ≠ "__main__") :
    moduleTrace pyName = moduleImportEffects ∧
    Effect.asyncioRunMain ∉ moduleTrace pyName ∧
    Effect.openRunContext ∉ moduleTrace pyName ∧
    Effect.callInteractive ∉ moduleTrace pyName := by
  have e : moduleTrace pyName = moduleImportEffects := by
    simp [moduleTrace, h]
  refine ⟨e, ?_, ?_, ?_⟩ <;> rw [e] <;> simp [moduleImportEffects]

/-- Witness for C9 at the module's dotted import name. -/
theorem import_only_registers_check :
    ("agents.critic.agent" ≠ "__main__") ∧
    (moduleTrace "agents.critic.agent" = moduleImportEffects ∧
     Effect.asyncioRunMain ∉ moduleTrace "agents.critic.agent" ∧
     Effect.openRunContext ∉ moduleTrace "agents.critic.agent" ∧
     Effect.callInteractive ∉ moduleTrace "agents.critic.agent") :=
  ⟨by decide, import_only_registers "agents.critic.agent" (by decide)⟩

/-- Claim C10: the instruction payload is a compile-time constant: whatever
the environment, arguments or interactive input of two runs, the
instruction registered with the agent runner is the identical string, and
the registration effect carries exactly that string. -/
theorem instruction_payload_deterministic :
    (∀ (env1 argv1 in1 env2 argv2 in2 : List String),
      registeredInstruction (env1.map fun v => (v, v)) argv1 in1 =
        registeredInstruction (env2.map fun v => (v, v)) argv2 in2) ∧
    Effect.registerAgent instruction ∈ moduleImportEffects ∧
    registeredInstruction [] [] [] = instruction :=
  ⟨fun _ _ _ _ _ _ => rfl,
   List.Mem.tail _ (List.Mem.head _),
   rfl⟩
